import Mathlib

/-!
Shallow embedding of the GLS-SUS-Optimal energy-hub optimization model
(pyomo model builder, constraint families, objective, demand-target
bucketing and the Cournot strategic loop), together with theorems that
settle the specification claims against it.

Conventions of the embedding:
* pyomo `Set` objects become Lean lists (kept in declaration order);
* pyomo `Param`/`Var` data become total functions into `ℚ`
  (floating point is modelled by exact rationals);
* a pyomo constraint rule that can return `Constraint.Skip` becomes a
  guard (the exact condition under which the rule does NOT skip)
  together with the relational expression of the generated row;
* a feasible solution of the assembled model is a variable assignment
  satisfying every generated row plus every variable-domain restriction.
-/

namespace GLSSUS

/-- Sum of a rational-valued function over a list (the shape of the
`sum(...)` generator expressions in the pyomo source). -/
def sumL (l : List α) (f : α → ℚ) : ℚ :=
  (l.map f).sum

/-- Cartesian product of two lists, in the nested iteration order used by
the python comprehensions. -/
def listProd (l1 : List α) (l2 : List β) : List (α × β) :=
  l1.flatMap (fun a => l2.map (fun b => (a, b)))

theorem sumL_nil (f : α → ℚ) : sumL ([] : List α) f = 0 := rfl

theorem sumL_cons (a : α) (l : List α) (f : α → ℚ) :
    sumL (a :: l) f = f a + sumL l f := by
  simp [sumL]

theorem sumL_congr {l : List α} {f g : α → ℚ} (h : ∀ x ∈ l, f x = g x) :
    sumL l f = sumL l g := by
  induction l with
  | nil => rfl
  | cons a l ih =>
      rw [sumL_cons, sumL_cons, h a (List.mem_cons_self a l),
        ih (fun x hx => h x (List.mem_cons_of_mem a hx))]

theorem sumL_add (l : List α) (f g : α → ℚ) :
    sumL l (fun x => f x + g x) = sumL l f + sumL l g := by
  induction l with
  | nil => simp [sumL]
  | cons a l ih => rw [sumL_cons, sumL_cons, sumL_cons, ih]; ring

theorem sumL_div (l : List α) (f : α → ℚ) (c : ℚ) :
    sumL l (fun x => f x / c) = sumL l f / c := by
  induction l with
  | nil => simp [sumL]
  | cons a l ih => rw [sumL_cons, sumL_cons, ih, add_div]

theorem sumL_nonneg {l : List α} {f : α → ℚ} (h : ∀ x ∈ l, 0 ≤ f x) :
    0 ≤ sumL l f := by
  induction l with
  | nil => simp [sumL]
  | cons a l ih =>
      rw [sumL_cons]
      have h1 := h a (List.mem_cons_self a l)
      have h2 := ih (fun x hx => h x (List.mem_cons_of_mem a hx))
      linarith

theorem sumL_pos_of_mem {l : List α} {f : α → ℚ} {x : α}
    (hx : x ∈ l) (hpos : 0 < f x) (hnn : ∀ y ∈ l, 0 ≤ f y) :
    0 < sumL l f := by
  induction l with
  | nil => cases hx
  | cons a l ih =>
      rw [sumL_cons]
      rcases List.mem_cons.mp hx with h | h
      · rw [h] at hpos
        have := sumL_nonneg (fun y hy => hnn y (List.mem_cons_of_mem a hy))
        linarith
      · have h1 := hnn a (List.mem_cons_self a l)
        have h2 := ih h (fun y hy => hnn y (List.mem_cons_of_mem a hy))
        linarith

theorem sumL_filter_pos {l : List α} {f : α → ℚ}
    (h : ∀ x ∈ l, 0 ≤ f x) :
    sumL (l.filter (fun x => decide (0 < f x))) f = sumL l f := by
  induction l with
  | nil => rfl
  | cons a l ih =>
      have hnn := h a (List.mem_cons_self a l)
      have ih2 := ih (fun x hx => h x (List.mem_cons_of_mem a hx))
      by_cases hpos : 0 < f a
      · rw [List.filter_cons_of_pos (by simpa using hpos), sumL_cons,
          sumL_cons, ih2]
      · have hz : f a = 0 := le_antisymm (not_lt.mp hpos) hnn
        rw [List.filter_cons_of_neg (by simpa using hpos), sumL_cons, ih2,
          hz, zero_add]

/-! ## Domain schema

The canonical in-memory data produced by the (out-of-scope) loader,
as consumed by `src/model/sets.py`, `src/data/preprocess.py` and
`src/model/parameters.py`.  Entity names are strings, numeric data are
total rational-valued functions (an absent dictionary key reads as 0).
-/

/-- The raw model data dictionary (`data`, `tech_df` and the relevant
`ModelConfig` fields of the source, bundled). -/
structure ModelData where
  /-- areas (`data['A']`) -/
  A : List String
  /-- technologies (`data['G']` = rows of Techdata) -/
  G : List String
  /-- energy carriers / fuels (`data['F']`) -/
  F : List String
  /-- ordered time steps (`data['T']`) -/
  T : List String
  /-- storage technologies (`data['G_s']`) -/
  G_s : List String
  /-- raw input carrier-mix entries (`data['sigma_in']`) -/
  sigma_in : String → String → ℚ
  /-- raw output carrier-mix entries (`data['sigma_out']`) -/
  sigma_out : String → String → ℚ
  /-- Techdata `Capacity` column, before preprocessing -/
  capRaw : String → ℚ
  /-- Techdata `StorageCap` column -/
  storageCap : String → ℚ
  /-- Techdata `InitialVolume` column -/
  initialVolume : String → ℚ
  /-- Techdata `Minimum` column (minimum-load fraction), before scaling -/
  minRaw : String → ℚ
  /-- Techdata `RampRate` column (ramp-rate fraction), before scaling -/
  rampRaw : String → ℚ
  /-- Techdata `VariableOmcost` column -/
  cvar : String → ℚ
  /-- Techdata `StartupCost` column -/
  cstart : String → ℚ
  /-- Siting pairs, ordered (area, technology) (`data['location']`) -/
  location : List (String × String)
  /-- Transport links, ordered (area from, area to, carrier) (`data['FlowSet']`) -/
  flowset : List (String × String × String)
  /-- Pairs (area, carrier) that appear as columns of the demand file;
  `data['Demand']` has a key for every such pair and every time step -/
  demandPairs : List (String × String)
  /-- demand values (`data['Demand']`) -/
  demand : String → String → String → ℚ
  /-- buy prices (`data['price_buy']`) -/
  price_buy : String → String → String → ℚ
  /-- sell prices (`data['price_sell']`) -/
  price_sell : String → String → String → ℚ
  /-- interconnector capacities (`data['Xcap']`, pyomo Param default 0) -/
  xcap : String → String → String → ℚ
  /-- availability profile (`data['Profile']`) -/
  profile : String → String → ℚ
  /-- demand-target keys `(step, area, fuel)` (`data['DemandTarget']`
  keys; the source stores the pair as the dotted string `area.fuel`
  which `target_demand_rule` splits back into its two components) -/
  demandFuel : List (String × String × String)
  /-- demand-target quantities (`data['DemandTarget']`) -/
  demandTargetVal : String → String → String → ℚ
  /-- week label of each time step (`data['WeekOfT']`) -/
  weekOfT : String → String
  /-- slack penalty factor (`cfg.penalty`) -/
  penalty : ℚ
  /-- The `cfg.green_electricity` flag -/
  greenElectricity : Bool
  /-- The `cfg.electricity_mandate` (0 = off, following python truthiness) -/
  electricityMandate : ℚ
  /-- The `cfg.el_prod_to_grid` (0 = off, following python truthiness) -/
  elProdToGrid : ℚ

/-! ## Derived sets (`src/model/sets.py`) -/

/-- Production (non-storage) technologies (`G_p`). -/
def G_p (M : ModelData) : List String :=
  M.G.filter (fun g => decide (g ∉ M.G_s))

/-- Technology-carrier import pairs (`pairs_in` / `model.f_in`). -/
def f_in (M : ModelData) : List (String × String) :=
  (listProd M.G M.F).filter (fun p => decide (0 < M.sigma_in p.1 p.2))

/-- Technology-carrier export pairs (`pairs_out` / `model.f_out`). -/
def f_out (M : ModelData) : List (String × String) :=
  (listProd M.G M.F).filter (fun p => decide (0 < M.sigma_out p.1 p.2))

/-- Designated technology-to-primary-carrier pairs
(`tech_to_f`, i.e. `model.TechToEnergy`: output-mix entry equal to 1). -/
def TechToEnergy (M : ModelData) : List (String × String) :=
  (listProd M.G M.F).filter (fun p => decide (M.sigma_out p.1 p.2 = 1))

/-- Tradable buy pairs (`buy_pairs` / `model.buyE`): some strictly
positive listed buy price in the horizon. -/
def buyE (M : ModelData) : List (String × String) :=
  (listProd M.A M.F).filter
    (fun p => M.T.any (fun t => decide (0 < M.price_buy p.1 p.2 t)))

/-- Tradable sell pairs (`sale_pairs` / `model.saleE`). -/
def saleE (M : ModelData) : List (String × String) :=
  (listProd M.A M.F).filter
    (fun p => M.T.any (fun t => decide (0 < M.price_sell p.1 p.2 t)))

/-- Areas with any strictly positive interconnector capacity
(`lines` / `model.LinesInterconnectors`). -/
def LinesInterconnectors (M : ModelData) : List String :=
  M.A.filter
    (fun a => (listProd M.F M.T).any (fun q => decide (0 < M.xcap a q.1 q.2)))

/-- The instantaneous-demand index set (`model.DemandSet`): all keys of
the demand dictionary, i.e. every demand column paired with every time
step of the (possibly sliced) horizon. -/
def DemandSet (M : ModelData) : List (String × String × String) :=
  M.demandPairs.flatMap (fun p => M.T.map (fun t => (p.1, p.2, t)))

/-! ## Preprocessing (`src/data/preprocess.py`, `scale_tech_parameters`) -/

/-- Sum of all raw input-mix entries of a technology (`sum_in_raw`). -/
def sum_in_raw (M : ModelData) (g : String) : ℚ :=
  sumL M.F (fun e => M.sigma_in g e)

/-- Sum of all raw output-mix entries of a technology. -/
def sum_out_raw (M : ModelData) (g : String) : ℚ :=
  sumL M.F (fun e => M.sigma_out g e)

/-- The capacity column after the storage override
(`tech_df.loc[G_s, 'Capacity'] = tech_df.loc[G_s, 'StorageCap']`). -/
def origCap (M : ModelData) (g : String) : ℚ :=
  if g ∈ M.G_s then M.storageCap g else M.capRaw g

/-- Unit-commitment technologies (`UC`): strictly positive raw minimum. -/
def UC (M : ModelData) : List String :=
  M.G.filter (fun g => decide (0 < M.minRaw g))

/-- Ramp-rate technologies (`RR`): strictly positive raw ramp rate. -/
def RR (M : ModelData) : List String :=
  M.G.filter (fun g => decide (0 < M.rampRaw g))

/-- Scaled minimum load (`tech_df.at[g,'Minimum']` after scaling;
only members of `UC` are rescaled). -/
def Minimum (M : ModelData) (g : String) : ℚ :=
  if 0 < M.minRaw g then sum_in_raw M g * origCap M g * M.minRaw g
  else M.minRaw g

/-- Scaled ramp rate (only members of `RR` are rescaled). -/
def RampRate (M : ModelData) (g : String) : ℚ :=
  if 0 < M.rampRaw g then sum_in_raw M g * origCap M g * M.rampRaw g
  else M.rampRaw g

/-- Scaled capacity (`capacity[g] = sum_in_raw[g] * orig_cap[g]`,
applied to every technology). -/
def capacity (M : ModelData) (g : String) : ℚ :=
  sum_in_raw M g * origCap M g

/-! ## Derived parameters (`src/model/parameters.py`, `define_params`) -/

/-- Conversion efficiency `Fe[g]`: total raw output over total raw
input, guarded to the default 1.0 when the input total is not
strictly positive. -/
def Fe (M : ModelData) (g : String) : ℚ :=
  if 0 < sum_in_raw M g then sum_out_raw M g / sum_in_raw M g else 1

/-- Input-mix fraction `in_frac[(g,e)]`; the source only creates the
dictionary entry when the raw entry is strictly positive, an absent
entry reads as 0. -/
def in_frac (M : ModelData) (g e : String) : ℚ :=
  if 0 < M.sigma_in g e then M.sigma_in g e / sum_in_raw M g else 0

/-- Output-mix fraction `out_frac[(g,e)]`. -/
def out_frac (M : ModelData) (g e : String) : ℚ :=
  if 0 < M.sigma_out g e then M.sigma_out g e / sum_out_raw M g else 0

/-- The `soc_init[g]` (initial storage volume). -/
def soc_init (M : ModelData) (g : String) : ℚ :=
  M.initialVolume g

/-- The `soc_max[g]` (storage volume capacity). -/
def soc_max (M : ModelData) (g : String) : ℚ :=
  M.storageCap g

/-! ## Decision variables (`src/model/variables.py`)

A candidate solution is a value for every decision variable.  The
variables and their index sets follow `define_variables`; the demand
slacks are indexed so that `demand_time_rule` and the objective can read
them at every member of `DemandSet`, and `SlackTarget` is indexed by the
demand-target keys used by `target_demand_rule`. -/

/-- A variable assignment for the assembled model. -/
structure Solution where
  Fueluse : String → String → String → ℚ
  Fuelusetotal : String → String → ℚ
  Generation : String → String → String → ℚ
  Volume : String → String → ℚ
  Flow : String → String → String → String → ℚ
  Buy : String → String → String → ℚ
  Sale : String → String → String → ℚ
  SlackDemandImport : String → String → String → ℚ
  SlackDemandExport : String → String → String → ℚ
  SlackTarget : String → String → String → ℚ
  Startcost : String → String → ℚ
  Online : String → String → ℚ
  Charge : String → String → ℚ
  Profit : ℚ

/-! ## Constraint rules (`src/model/constraints.py`)

Each pyomo rule that may `Constraint.Skip` is split into the guard under
which a row is generated and the relation the generated row imposes. -/

/-- The `discharge` expression shared by `storage_balance_rule` and
`discharging_max`: mix-weighted discharge of a storage technology. -/
def discharge (M : ModelData) (σ : Solution) (g t : String) : ℚ :=
  sumL ((f_out M).filter (fun p => p.1 == g))
    (fun p => σ.Generation g p.2 t * out_frac M g p.2)

/-- Guard of `balance_rule`: a tradable buy pair, a tradable sell pair,
or some technology sited in the area importing or exporting the
carrier. -/
def balance_guard (M : ModelData) (a e : String) : Bool :=
  decide ((a, e) ∈ buyE M) || decide ((a, e) ∈ saleE M) ||
    ((M.location.filter (fun p => p.1 == a)).map (fun p => p.2)).any
      (fun g => decide ((g, e) ∈ f_in M) || decide ((g, e) ∈ f_out M))

/-- Whether the energy-balance constraint family generates a row at
`(a, e, t)`: the family is declared over `A × F × T` and the rule skips
exactly when `balance_guard` is false. -/
def balanceRowActive (M : ModelData) (a e t : String) : Bool :=
  decide (a ∈ M.A) && decide (e ∈ M.F) && decide (t ∈ M.T) &&
    balance_guard M a e

/-- The relation imposed by a generated `balance_rule` row:
Buy + inbound flows + local generation = local fuel use + Sale +
outbound flows. -/
def balance_eq (M : ModelData) (σ : Solution) (a e t : String) : Prop :=
  (if (a, e) ∈ buyE M then σ.Buy a e t else 0) +
      sumL (M.flowset.filter (fun q => q.2.1 == a && q.2.2 == e))
        (fun q => σ.Flow q.1 a e t) +
      sumL (((M.location.filter (fun p => p.1 == a)).map (fun p => p.2)).filter
          (fun g => decide ((g, e) ∈ f_out M)))
        (fun g => σ.Generation g e t) =
    sumL (((M.location.filter (fun p => p.1 == a)).map (fun p => p.2)).filter
        (fun g => decide ((g, e) ∈ f_in M)))
      (fun g => σ.Fueluse g e t) +
      (if (a, e) ∈ saleE M then σ.Sale a e t else 0) +
      sumL (M.flowset.filter (fun q => q.1 == a && q.2.2 == e))
        (fun q => σ.Flow a q.2.1 e t)

/-- Guard of `demand_time_rule`: total demand of the pair over the
horizon is strictly positive (the rule skips when it is `<= 0`). -/
def demand_guard (M : ModelData) (a e : String) : Bool :=
  decide (0 < sumL M.T (fun tt => M.demand a e tt))

/-- Whether the demand-floor family (`model.DemandTime`, declared over
`model.DemandSet`) generates a row at `(a, e, t)`. -/
def demandRowActive (M : ModelData) (a e t : String) : Bool :=
  decide ((a, e) ∈ M.demandPairs) && decide (t ∈ M.T) && demand_guard M a e

/-- The relation imposed by a generated `demand_time_rule` row:
(sale, when the pair is a tradable sell pair) + import-shortfall slack
− export-shortfall slack ≥ demand. -/
def demand_ineq (M : ModelData) (σ : Solution) (a e t : String) : Prop :=
  (if (a, e) ∈ saleE M then σ.Sale a e t else 0) +
      σ.SlackDemandImport a e t - σ.SlackDemandExport a e t ≥
    M.demand a e t

/-- Total interconnector capacity of a carrier at a time step, summed
over the interconnector areas (`total_cap` of `max_buy_rule` /
`max_sale_rule`). -/
def total_cap (M : ModelData) (e t : String) : ℚ :=
  sumL (LinesInterconnectors M) (fun a => M.xcap a e t)

/-- Generation of a carrier within a bucket by technologies sited in an
area (the `total` expression of `target_demand_rule`). -/
def target_total (M : ModelData) (σ : Solution) (step a e : String) : ℚ :=
  sumL ((listProd M.G M.T).filter
      (fun q => decide ((q.1, e) ∈ f_out M) && decide ((a, q.1) ∈ M.location)
        && (M.weekOfT q.2 == step)))
    (fun q => σ.Generation q.1 e q.2)

/-! ## The objective (`src/model/objective.py`, `define_objective`)

`Profit` is pinned by the `ProfitDefinition` constraint and the
objective maximizes `Profit`.  The revenue, buy-cost, variable-O&M and
startup terms and the demand-floor slack sum follow
`src/model/objective.py`, which is present in the repository; the
demand-target shortfall term is

Modelled from the spec: the objective module of the EnerHub2X package
(whose `target_demand_rule` constraint uses the `SlackTarget`
variables) is not part of the snapshot, and spec section 4.5 states that
the objective subtracts `penalty × Σ(all demand-floor and demand-target
slacks)`; the `SlackTarget` sum below is taken over the full index set
of that variable family, mirroring how the visible objective sums the
demand-floor slacks over theirs. -/

/-- The sum of all slack variables penalized in the objective
(`slack_sum` plus the demand-target shortfall slacks). -/
def slack_sum (M : ModelData) (σ : Solution) : ℚ :=
  sumL (DemandSet M)
      (fun q => σ.SlackDemandImport q.1 q.2.1 q.2.2 +
        σ.SlackDemandExport q.1 q.2.1 q.2.2) +
    sumL M.demandFuel (fun q => σ.SlackTarget q.1 q.2.1 q.2.2)

/-- Total buy cost (`imp_cost`). -/
def imp_cost (M : ModelData) (σ : Solution) : ℚ :=
  sumL (listProd (buyE M) M.T)
    (fun q => M.price_buy q.1.1 q.1.2 q.2 * σ.Buy q.1.1 q.1.2 q.2)

/-- Sell-price parameter (`model.price_sale`, initialized from
`data['price_sell']`). -/
def price_sale (M : ModelData) (a e t : String) : ℚ :=
  M.price_sell a e t

/-- Total sale revenue (`sale_rev`). -/
def sale_rev (M : ModelData) (σ : Solution) : ℚ :=
  sumL (listProd (saleE M) M.T)
    (fun q => price_sale M q.1.1 q.1.2 q.2 * σ.Sale q.1.1 q.1.2 q.2)

/-- Variable O&M cost over the technology-to-primary-carrier links
(`var_om`). -/
def var_om (M : ModelData) (σ : Solution) : ℚ :=
  sumL (listProd (TechToEnergy M) M.T)
    (fun q => σ.Generation q.1.1 q.1.2 q.2 * M.cvar q.1.1)

/-- Total startup cost (`startup`). -/
def startup_sum (M : ModelData) (σ : Solution) : ℚ :=
  sumL (listProd M.G M.T) (fun q => σ.Startcost q.1 q.2)

/-- The relation imposed by the `ProfitDefinition` constraint. -/
def profit_definition (M : ModelData) (σ : Solution) : Prop :=
  σ.Profit =
    -imp_cost M σ + sale_rev M σ - var_om M σ - startup_sum M σ -
      M.penalty * slack_sum M σ

/-- Objective sense of the assembled model. -/
inductive ObjSense where
  | maximize
  | minimize
deriving DecidableEq

/-- The objective installed by `define_objective`:
`Objective(expr=m.Profit, sense=maximize)`. -/
def objective (_ : ModelData) : (Solution → ℚ) × ObjSense :=
  (fun σ => σ.Profit, ObjSense.maximize)

/-! ## Feasibility of the assembled model

A solution is feasible when it satisfies every variable-domain
restriction of `define_variables` and every row generated by
`add_constraints` (plus the `ProfitDefinition` row installed by
`define_objective`).  Time-ordered rules (`T.first()`, `T.prev(t)`,
`T.last()`) are expressed through positions in the ordered list `M.T`;
`M.T.getD i ""` is the `i`-th time step. -/

/-- Feasibility of a variable assignment for the assembled model. -/
structure Feasible (M : ModelData) (σ : Solution) : Prop where
  /-- The `Fueluse` is `NonNegativeReals` over `f_in × T`. -/
  fueluse_nonneg : ∀ p ∈ f_in M, ∀ t ∈ M.T, 0 ≤ σ.Fueluse p.1 p.2 t
  /-- The `Fuelusetotal` is `NonNegativeReals` over `G × T`. -/
  fuelusetotal_nonneg : ∀ g ∈ M.G, ∀ t ∈ M.T, 0 ≤ σ.Fuelusetotal g t
  /-- The `Generation` is `NonNegativeReals` over `f_out × T`. -/
  generation_nonneg : ∀ p ∈ f_out M, ∀ t ∈ M.T, 0 ≤ σ.Generation p.1 p.2 t
  /-- The `Volume` is `NonNegativeReals` over `G_s × T`. -/
  volume_nonneg : ∀ g ∈ M.G_s, ∀ t ∈ M.T, 0 ≤ σ.Volume g t
  /-- The `Flow` is `NonNegativeReals` over `flowset × T`. -/
  flow_nonneg : ∀ q ∈ M.flowset, ∀ t ∈ M.T, 0 ≤ σ.Flow q.1 q.2.1 q.2.2 t
  /-- The `Buy` is `NonNegativeReals` over `buyE × T`. -/
  buy_nonneg : ∀ p ∈ buyE M, ∀ t ∈ M.T, 0 ≤ σ.Buy p.1 p.2 t
  /-- The `Sale` is `NonNegativeReals` over `saleE × T`. -/
  sale_nonneg : ∀ p ∈ saleE M, ∀ t ∈ M.T, 0 ≤ σ.Sale p.1 p.2 t
  /-- The `SlackDemandImport` is `NonNegativeReals`. -/
  slack_imp_nonneg :
    ∀ q ∈ DemandSet M, 0 ≤ σ.SlackDemandImport q.1 q.2.1 q.2.2
  /-- The `SlackDemandExport` is `NonNegativeReals`. -/
  slack_exp_nonneg :
    ∀ q ∈ DemandSet M, 0 ≤ σ.SlackDemandExport q.1 q.2.1 q.2.2
  /-- The `SlackTarget` is `NonNegativeReals`. -/
  slack_target_nonneg :
    ∀ q ∈ M.demandFuel, 0 ≤ σ.SlackTarget q.1 q.2.1 q.2.2
  /-- The `Startcost` is `NonNegativeReals` over `G × T`. -/
  startcost_nonneg : ∀ g ∈ M.G, ∀ t ∈ M.T, 0 ≤ σ.Startcost g t
  /-- The `Online` is `Binary` over `G × T`. -/
  online_binary :
    ∀ g ∈ M.G, ∀ t ∈ M.T, σ.Online g t = 0 ∨ σ.Online g t = 1
  /-- The `Charge` is `Binary` over `G_s × T`. -/
  charge_binary :
    ∀ g ∈ M.G_s, ∀ t ∈ M.T, σ.Charge g t = 0 ∨ σ.Charge g t = 1
  /-- The `model.Fuelmix` (`fuelmix_rule`; skipped when `capacity[g] <= 0`). -/
  fuelmix : ∀ p ∈ f_in M, ∀ t ∈ M.T, 0 < capacity M p.1 →
    in_frac M p.1 p.2 * σ.Fuelusetotal p.1 t = σ.Fueluse p.1 p.2 t
  /-- The `model.Production` (`production_rule`; skipped when
  `capacity[g] <= 0` and for storage technologies). -/
  production : ∀ p ∈ f_out M, ∀ t ∈ M.T, 0 < capacity M p.1 →
    p.1 ∉ M.G_s →
    out_frac M p.1 p.2 * σ.Fuelusetotal p.1 t * Fe M p.1 =
      σ.Generation p.1 p.2 t
  /-- The `model.ProductionStorage` (`storage_balance_rule`). -/
  storage_balance : ∀ g ∈ M.G_s, ∀ i ∈ List.range M.T.length,
    σ.Volume g (M.T.getD i "") =
      (if i = 0 then soc_init M g else σ.Volume g (M.T.getD (i - 1) "")) +
        σ.Fuelusetotal g (M.T.getD i "") * Fe M g -
        discharge M σ g (M.T.getD i "")
  /-- The `model.ChargingStorageMax` (`charging_max`). -/
  charging_max : ∀ g ∈ M.G_s, ∀ t ∈ M.T,
    σ.Fuelusetotal g t ≤ capacity M g * σ.Charge g t
  /-- The `model.DisChargingStorageMax` (`discharging_max`). -/
  discharging_max : ∀ g ∈ M.G_s, ∀ t ∈ M.T,
    discharge M σ g t ≤ capacity M g * (1 - σ.Charge g t)
  /-- The `model.VolumeUpper` (`volume_upper_rule`). -/
  volume_upper : ∀ g ∈ M.G_s, ∀ t ∈ M.T, σ.Volume g t ≤ soc_max M g
  /-- The `model.TerminalSOC` (`volume_final_soc`): the volume at `T.last()`
  equals the initial volume. -/
  terminal_soc : ∀ g ∈ M.G_s, M.T ≠ [] →
    σ.Volume g (M.T.getD (M.T.length - 1) "") = soc_init M g
  /-- The `model.Balance` (`balance_rule`, declared over `A × F × T`). -/
  balance : ∀ a ∈ M.A, ∀ e ∈ M.F, ∀ t ∈ M.T,
    balance_guard M a e = true → balance_eq M σ a e t
  /-- The `model.DemandTime` (`demand_time_rule`, declared over
  `model.DemandSet`). -/
  demand_time : ∀ q ∈ DemandSet M,
    demand_guard M q.1 q.2.1 = true → demand_ineq M σ q.1 q.2.1 q.2.2
  /-- The `model.MaxBuy` (`max_buy_rule`; skipped when total capacity is
  `<= 0`). -/
  max_buy : ∀ e ∈ M.F, ∀ t ∈ M.T, 0 < total_cap M e t →
    sumL ((buyE M).filter (fun p => p.2 == e)) (fun p => σ.Buy p.1 p.2 t) ≤
      total_cap M e t / ((LinesInterconnectors M).length : ℚ)
  /-- The `model.MaxSale` (`max_sale_rule`). -/
  max_sale : ∀ e ∈ M.F, ∀ t ∈ M.T, 0 < total_cap M e t →
    sumL ((saleE M).filter (fun p => p.2 == e)) (fun p => σ.Sale p.1 p.2 t) ≤
      total_cap M e t / ((LinesInterconnectors M).length : ℚ)
  /-- The `model.Availability` (`availability_rule`; declared over
  `G_p × T`, skipped for storage and when `capacity[g] <= 0`). -/
  availability : ∀ g ∈ G_p M, ∀ t ∈ M.T, g ∉ M.G_s →
    0 < capacity M g →
    σ.Fuelusetotal g t ≤ capacity M g * M.profile g t
  /-- The `model.RampUp` (`ramp_up_rule`; skipped for non-UC technologies
  and at the first time step). -/
  ramp_up : ∀ g ∈ M.G, g ∈ UC M → ∀ i ∈ List.range M.T.length, i ≠ 0 →
    RampRate M g * σ.Online g (M.T.getD (i - 1) "") +
        Minimum M g * (1 - σ.Online g (M.T.getD (i - 1) "")) ≥
      sumL ((f_out M).filter (fun p => p.1 == g))
        (fun p => (σ.Generation g p.2 (M.T.getD i "") -
          σ.Generation g p.2 (M.T.getD (i - 1) "")) / Fe M g)
  /-- The `model.RampDown` (`ramp_down_rule`). -/
  ramp_down : ∀ g ∈ M.G, g ∈ UC M → ∀ i ∈ List.range M.T.length, i ≠ 0 →
    RampRate M g * σ.Online g (M.T.getD i "") +
        Minimum M g * (1 - σ.Online g (M.T.getD i "")) ≥
      sumL ((f_out M).filter (fun p => p.1 == g))
        (fun p => (σ.Generation g p.2 (M.T.getD (i - 1) "") -
          σ.Generation g p.2 (M.T.getD i "")) / Fe M g)
  /-- The `model.Capacity` (`capacity_rule`; only for UC technologies). -/
  capacity_row : ∀ g ∈ M.G, ∀ t ∈ M.T, g ∈ UC M →
    capacity M g * σ.Online g t ≥ σ.Fuelusetotal g t
  /-- The `model.MinimumLoad` (`minimum_load_rule`; only for UC technologies
  with strictly positive scaled minimum). -/
  minimum_load : ∀ g ∈ M.G, ∀ t ∈ M.T, g ∈ UC M → 0 < Minimum M g →
    σ.Fuelusetotal g t ≥ Minimum M g * σ.Online g t
  /-- The `model.StartupCost` (`startup_cost_rule`; previous online status
  defaults to 0 at the first time step). -/
  startup_cost : ∀ g ∈ M.G, g ∈ UC M → 0 < M.cstart g →
    ∀ i ∈ List.range M.T.length,
    σ.Startcost g (M.T.getD i "") ≥
      M.cstart g * (σ.Online g (M.T.getD i "") -
        (if i = 0 then 0 else σ.Online g (M.T.getD (i - 1) "")))
  /-- The `model.TargetDemand` (`target_demand_rule`). -/
  target_demand : ∀ q ∈ M.demandFuel,
    target_total M σ q.1 q.2.1 q.2.2 + σ.SlackTarget q.1 q.2.1 q.2.2 ≥
      M.demandTargetVal q.1 q.2.1 q.2.2
  /-- The `model.GreenGrid` (`green_electricity_import`; only when the
  `GreenElectricity` flag is set, only for `('DK1', 'Electricity')`
  and hours where the buy price exceeds 20). -/
  green_grid : M.greenElectricity = true → ∀ p ∈ buyE M, ∀ t ∈ M.T,
    p = ("DK1", "Electricity") → 20 < M.price_buy p.1 p.2 t →
    σ.Buy p.1 p.2 t = 0
  /-- The `model.GridRestriction` (`restrict_grid_import`; only when the
  electricity-mandate fraction is truthy). -/
  grid_restriction : M.electricityMandate ≠ 0 → ∀ t ∈ M.T,
    σ.Buy "DK1" "Electricity" t ≤
      M.electricityMandate *
        sumL ((f_in M).filter (fun p => p.2 == "Electricity"))
          (fun p => σ.Fueluse p.1 "Electricity" t)
  /-- The `model.ExportLimit` (`restrict_grid_export`; only when the
  export-fraction flag is truthy). -/
  export_limit : M.elProdToGrid ≠ 0 → ∀ t ∈ M.T,
    σ.Sale "DK1" "Electricity" t ≤
      M.elProdToGrid *
        sumL ((f_out M).filter (fun p => p.2 == "Electricity"))
          (fun p => σ.Generation p.1 "Electricity" t)
  /-- The `model.ProfitDefinition` (`profit_definition_rule`). -/
  profit_def : profit_definition M σ

/-! ## Demand-target bucketing
(`src/utils/assign_hours_to_weeks.py`, `build_full_year_week_map`)

The python function walks the weeks in order, gives each week
`base = N // n_weeks` hours plus one extra hour while the week index is
below `remainder = N % n_weeks`, and labels the hours consumed by week
`w` with `Target{w+1}`.  `weekAssignment n nWeeks` is the resulting
sequence of numeric week labels, in hour order. -/

/-- The sequence of week labels produced by the assignment loop: hour
`i` (0-based) receives the label at position `i`.  Labels are the
numeric part `w+1` of the `Target{w+1}` strings of the source. -/
def weekAssignment (n nWeeks : ℕ) : List ℕ :=
  (List.range nWeeks).flatMap
    (fun w => List.replicate (n / nWeeks + if w < n % nWeeks then 1 else 0)
      (w + 1))

/-- The `build_full_year_week_map`: pairs each hour label with its week
label, in order. -/
def build_full_year_week_map (fullHours : List String) (nWeeks : ℕ) :
    List (String × ℕ) :=
  fullHours.zip (weekAssignment fullHours.length nWeeks)

/-! ## Strategic equilibrium loop
(`src/strategic/strategic_loop.py`)

pyomo set members are tuples; membership tests compare the queried tuple
against the stored members, so a tuple of the wrong arity is simply not
found.  To keep that behaviour observable, this section represents the
members of `model.saleE` untyped, as lists of strings: `sets.py` stores
2-element `(area, carrier)` members, while the strategic loop queries
3-element `(area, carrier, time)` tuples.

The external solver is out of scope; each sub-solve is an oracle giving
the solved `Sale` values, and `run_cournot` records one event per solver
invocation so that the order of solves and failures is observable. -/

/-- One solver invocation of the strategic loop. -/
inductive CEvent where
  /-- the initial centralized baseline solve -/
  | solveCentral
  /-- the best-response sub-solve with `tech` acting -/
  | solveBR (tech : String)
  /-- the final fully-fixed solve -/
  | solveFinal
deriving DecidableEq

/-- The error message of `run_cournot` when the strategic-supplier set
is missing or empty. -/
def stratErrMsg : String :=
  "No StrategicSuppliers found on model. Check sets.py or loader configuration."

/-- The solved base model as seen by the strategic loop.  `baseSale`
reads `value(model.Sale[idx])` of the centralized solve at an untyped
index tuple. -/
structure StratModel where
  /-- The `getattr(base_model, 'StrategicSuppliers', None)`: `none` when the
  set is absent from the model -/
  strategicSuppliers : Option (List String)
  /-- The `base_model.location` -/
  location : List (String × String)
  /-- The `base_model.saleE`: members are the stored tuples -/
  saleE : List (List String)
  /-- The `base_model.T` -/
  T : List String
  /-- solved `Sale` values of the baseline solve -/
  baseSale : List String → ℚ

/-- The `tech_to_area`: the dict comprehension
`{tech: area for (area, tech) in model.location}` keeps the last
occurrence of each technology. -/
def tech_to_area (loc : List (String × String)) (tech : String) :
    Option String :=
  (loc.reverse.find? (fun p => p.2 == tech)).map (fun p => p.1)

/-- The `_initialize_strategies`: a supplier's starting strategy is the
solved sale value when the queried index tuple is found in `saleE`, else
0.  A supplier missing from the location map gets the python `None`
area, rendered here by the sentinel `"None"` (such a tuple is likewise
never found in `saleE`). -/
def initialize_strategies (m : StratModel) (co2 : String) :
    String → String → ℚ :=
  fun tech t =>
    let area := (tech_to_area m.location tech).getD "None"
    if m.saleE.contains [area, co2, t] then m.baseSale [area, co2, t] else 0

/-- The `_update_strategy`: walk the time steps; whenever the index tuple
`[area, co2, t]` is found in `saleE`, replace the stored value by
`damping * solved + (1 - damping) * old` and accumulate the largest
absolute change.  Returns the updated per-time strategy of the supplier
and the maximum change found. -/
def update_strategy (saleE : List (List String)) (T : List String)
    (saleVal : String → ℚ) (area co2 : String) (damping : ℚ)
    (curr : String → ℚ) : (String → ℚ) × ℚ :=
  T.foldl
    (fun acc t =>
      let idx := [area, co2, t]
      if saleE.contains idx then
        let newVal := saleVal t
        let oldVal := acc.1 t
        let updated := damping * newVal + (1 - damping) * oldVal
        (fun s => if s == t then updated else acc.1 s,
          max acc.2 |updated - oldVal|)
      else acc)
    (curr, 0)

/-- One iteration of the best-response loop: each supplier in turn gets
a fresh sub-solve (recorded as a `solveBR` event; fixing the
competitors' variables acts on the solver model and is part of the
out-of-scope solve) followed by the damped strategy update.  Returns
the events, the updated strategies and the iteration's maximum change
(`max_change`, initialized to 0 each iteration). -/
def cournot_pass (m : StratModel) (brSale : String → List String → ℚ)
    (damping : ℚ) (co2 : String) (sups : List String)
    (curr : String → String → ℚ) :
    List CEvent × (String → String → ℚ) × ℚ :=
  sups.foldl
    (fun acc tech =>
      let area := (tech_to_area m.location tech).getD "None"
      let r := update_strategy m.saleE m.T
        (fun t => brSale tech [area, co2, t]) area co2 damping
        (acc.2.1 tech)
      (acc.1 ++ [CEvent.solveBR tech],
        fun g => if g == tech then r.1 else acc.2.1 g,
        max acc.2.2 r.2))
    ([], curr, 0)

/-- The iteration loop of `run_cournot`: run best-response passes until
the iteration's maximum change falls strictly below the tolerance or
the iteration cap is exhausted (reaching the cap is reported as a
warning, not an error). -/
def cournot_loop (m : StratModel)
    (brSale : ℕ → String → List String → ℚ) (tol damping : ℚ)
    (co2 : String) (sups : List String) :
    ℕ → ℕ → (String → String → ℚ) → List CEvent × (String → String → ℚ)
  | _, 0, curr => ([], curr)
  | iter, fuel + 1, curr =>
      let r := cournot_pass m (brSale iter) damping co2 sups curr
      if r.2.2 < tol then (r.1, r.2.1)
      else
        let rest := cournot_loop m brSale tol damping co2 sups
          (iter + 1) fuel r.2.1
        (r.1 ++ rest.1, rest.2)

/-- The `run_cournot`: build and solve the centralized baseline (the first
recorded event), then look up the strategic-supplier set and fail with
a descriptive error when it is missing or empty; otherwise initialize
the strategies, run the best-response iterations and finish with the
fully-fixed final solve.  Returns the ordered solver events and either
the error or the final strategies. -/
def run_cournot (m : StratModel)
    (brSale : ℕ → String → List String → ℚ) (tol : ℚ) (maxIter : ℕ)
    (damping : ℚ) (co2 : String) :
    List CEvent × Except String (String → String → ℚ) :=
  let ev0 := [CEvent.solveCentral]
  match m.strategicSuppliers with
  | none => (ev0, Except.error stratErrMsg)
  | some sups =>
      if sups.isEmpty then (ev0, Except.error stratErrMsg)
      else
        let curr0 := initialize_strategies m co2
        let r := cournot_loop m brSale tol damping co2 sups 1 maxIter curr0
        (ev0 ++ r.1 ++ [CEvent.solveFinal], Except.ok r.2)

/-! ## Decidability of the row relations (for concrete evaluation) -/

instance (M : ModelData) (σ : Solution) (a e t : String) :
    Decidable (balance_eq M σ a e t) := by
  unfold balance_eq; infer_instance

instance (M : ModelData) (σ : Solution) (a e t : String) :
    Decidable (demand_ineq M σ a e t) := by
  unfold demand_ineq; infer_instance

instance (M : ModelData) (σ : Solution) :
    Decidable (profit_definition M σ) := by
  unfold profit_definition; infer_instance

/-! ## Concrete instances

Small fully-concrete models and solutions, used to evaluate the
embedded definitions on explicit inputs. -/

/-- A model holding a single zero-size storage technology. -/
def toyStorage : ModelData where
  A := ["A1"]
  G := ["S"]
  F := ["P"]
  T := ["t1", "t2"]
  G_s := ["S"]
  sigma_in := fun _ _ => 0
  sigma_out := fun _ _ => 0
  capRaw := fun _ => 0
  storageCap := fun _ => 0
  initialVolume := fun _ => 0
  minRaw := fun _ => 0
  rampRaw := fun _ => 0
  cvar := fun _ => 0
  cstart := fun _ => 0
  location := [("A1", "S")]
  flowset := []
  demandPairs := []
  demand := fun _ _ _ => 0
  price_buy := fun _ _ _ => 0
  price_sell := fun _ _ _ => 0
  xcap := fun _ _ _ => 0
  profile := fun _ _ => 0
  demandFuel := []
  demandTargetVal := fun _ _ _ => 0
  weekOfT := fun _ => ""
  penalty := 100000
  greenElectricity := false
  electricityMandate := 0
  elProdToGrid := 0

/-- The all-zero variable assignment. -/
def zeroSol : Solution where
  Fueluse := fun _ _ _ => 0
  Fuelusetotal := fun _ _ => 0
  Generation := fun _ _ _ => 0
  Volume := fun _ _ => 0
  Flow := fun _ _ _ _ => 0
  Buy := fun _ _ _ => 0
  Sale := fun _ _ _ => 0
  SlackDemandImport := fun _ _ _ => 0
  SlackDemandExport := fun _ _ _ => 0
  SlackTarget := fun _ _ _ => 0
  Startcost := fun _ _ => 0
  Online := fun _ _ => 0
  Charge := fun _ _ => 0
  Profit := 0

theorem toyStorage_feasible : Feasible toyStorage zeroSol := by
  constructor <;>
    simp [toyStorage, zeroSol, G_p, f_in, f_out, TechToEnergy, buyE, saleE,
      LinesInterconnectors, DemandSet, sum_in_raw, sum_out_raw, origCap, UC, RR,
      Minimum, RampRate, capacity, Fe, in_frac, out_frac, soc_init, soc_max,
      discharge, balance_guard, balance_eq, demand_guard, demand_ineq,
      total_cap, target_total, slack_sum, imp_cost, sale_rev, price_sale,
      var_om, startup_sum, profit_definition, sumL, listProd, List.range_succ]

/-- A model holding a single unit-commitment production technology that
turns carrier `P` into carrier `P` at scaled capacity 1 with
minimum-load fraction 1/2. -/
def toyUC : ModelData where
  A := ["A1"]
  G := ["U"]
  F := ["P"]
  T := ["t1", "t2"]
  G_s := []
  sigma_in := fun g e => if g = "U" then (if e = "P" then 1 else 0) else 0
  sigma_out := fun g e => if g = "U" then (if e = "P" then 1 else 0) else 0
  capRaw := fun _ => 1
  storageCap := fun _ => 0
  initialVolume := fun _ => 0
  minRaw := fun _ => 1/2
  rampRaw := fun _ => 0
  cvar := fun _ => 0
  cstart := fun _ => 0
  location := [("A1", "U")]
  flowset := []
  demandPairs := []
  demand := fun _ _ _ => 0
  price_buy := fun _ _ _ => 0
  price_sell := fun _ _ _ => 0
  xcap := fun _ _ _ => 0
  profile := fun _ _ => 1
  demandFuel := []
  demandTargetVal := fun _ _ _ => 0
  weekOfT := fun _ => ""
  penalty := 2
  greenElectricity := false
  electricityMandate := 0
  elProdToGrid := 0

/-- A solution running `toyUC`'s technology online at full load. -/
def toyUCSol : Solution where
  Fueluse := fun _ _ _ => 1
  Fuelusetotal := fun _ _ => 1
  Generation := fun _ _ _ => 1
  Volume := fun _ _ => 0
  Flow := fun _ _ _ _ => 0
  Buy := fun _ _ _ => 0
  Sale := fun _ _ _ => 0
  SlackDemandImport := fun _ _ _ => 0
  SlackDemandExport := fun _ _ _ => 0
  SlackTarget := fun _ _ _ => 0
  Startcost := fun _ _ => 0
  Online := fun _ _ => 1
  Charge := fun _ _ => 0
  Profit := 0

theorem toyUC_feasible : Feasible toyUC toyUCSol := by
  constructor <;>
    simp [toyUC, toyUCSol, G_p, f_in, f_out, TechToEnergy, buyE, saleE,
      LinesInterconnectors, DemandSet, sum_in_raw, sum_out_raw, origCap, UC, RR,
      Minimum, RampRate, capacity, Fe, in_frac, out_frac, soc_init, soc_max,
      discharge, balance_guard, balance_eq, demand_guard, demand_ineq,
      total_cap, target_total, slack_sum, imp_cost, sale_rev, price_sale,
      var_om, startup_sum, profit_definition, sumL, listProd,
      List.range_succ]
  norm_num

/-- A model with no technologies, one demand pair `("A1", "P")` with
demand 1 at the first hour, and a positive sell price (so the pair is
tradable). -/
def toyDemand : ModelData where
  A := ["A1"]
  G := []
  F := ["P"]
  T := ["t1", "t2"]
  G_s := []
  sigma_in := fun _ _ => 0
  sigma_out := fun _ _ => 0
  capRaw := fun _ => 0
  storageCap := fun _ => 0
  initialVolume := fun _ => 0
  minRaw := fun _ => 0
  rampRaw := fun _ => 0
  cvar := fun _ => 0
  cstart := fun _ => 0
  location := []
  flowset := []
  demandPairs := [("A1", "P")]
  demand := fun _ _ t => if t = "t1" then 1 else 0
  price_buy := fun _ _ _ => 0
  price_sell := fun _ _ _ => 5
  xcap := fun _ _ _ => 0
  profile := fun _ _ => 0
  demandFuel := []
  demandTargetVal := fun _ _ _ => 0
  weekOfT := fun _ => ""
  penalty := 2
  greenElectricity := false
  electricityMandate := 0
  elProdToGrid := 0

/-- A feasible solution of `toyDemand`: the balance forces zero sales,
so the hour-1 demand is covered by the import-shortfall slack, whose
penalty is the whole (negative) profit. -/
def toyDemandSol : Solution where
  Fueluse := fun _ _ _ => 0
  Fuelusetotal := fun _ _ => 0
  Generation := fun _ _ _ => 0
  Volume := fun _ _ => 0
  Flow := fun _ _ _ _ => 0
  Buy := fun _ _ _ => 0
  Sale := fun _ _ _ => 0
  SlackDemandImport := fun _ _ t => if t = "t1" then 1 else 0
  SlackDemandExport := fun _ _ _ => 0
  SlackTarget := fun _ _ _ => 0
  Startcost := fun _ _ => 0
  Online := fun _ _ => 0
  Charge := fun _ _ => 0
  Profit := -2

/-! ## Structural lemmas about the week assignment -/

theorem count_flatMap (l : List ℕ) (f : ℕ → List ℕ) (c : ℕ) :
    (l.flatMap f).count c = (l.map (fun w => (f w).count c)).sum := by
  induction l with
  | nil => rfl
  | cons a l ih => simp [List.count_append, ih]

theorem length_flatMap_sum (l : List ℕ) (f : ℕ → List ℕ) :
    (l.flatMap f).length = (l.map (fun w => (f w).length)).sum := by
  induction l with
  | nil => rfl
  | cons a l ih => simp [ih]

theorem sum_map_range_ite (f : ℕ → ℕ) :
    ∀ n w0, w0 < n →
      ((List.range n).map (fun w => if w0 = w then f w else 0)).sum = f w0
  | 0, w0, h => absurd h (Nat.not_lt_zero w0)
  | n + 1, w0, h => by
      rw [List.range_succ, List.map_append, List.sum_append]
      by_cases hw : w0 = n
      · subst hw
        have hz : ((List.range w0).map
            (fun w => if w0 = w then f w else 0)).sum = 0 := by
          apply List.sum_eq_zero
          intro x hx
          simp only [List.mem_map] at hx
          obtain ⟨w, hw2, rfl⟩ := hx
          rw [if_neg]
          intro he
          have hlt := List.mem_range.mp hw2
          omega
        simp [hz]
      · have h2 : w0 < n := by omega
        rw [sum_map_range_ite f n w0 h2]
        simp [hw]

theorem count_weekAssignment (n nW w0 : ℕ) (h : w0 < nW) :
    (weekAssignment n nW).count (w0 + 1) =
      n / nW + if w0 < n % nW then 1 else 0 := by
  rw [weekAssignment, count_flatMap]
  have hmap : (List.range nW).map
      (fun w => (List.replicate (n / nW + if w < n % nW then 1 else 0)
        (w + 1)).count (w0 + 1)) =
      (List.range nW).map
        (fun w => if w0 = w
          then n / nW + (if w < n % nW then 1 else 0) else 0) := by
    apply List.map_congr_left
    intro w _
    rw [List.count_replicate]
    by_cases hw : w0 = w
    · subst hw; simp
    · have hne : ¬ w0 + 1 = w + 1 := by omega
      have hne2 : ¬ w = w0 := fun hh => hw hh.symm
      have hne3 : ¬ w + 1 = w0 + 1 := by omega
      simp [hw, hne, hne2, hne3]
  rw [hmap, sum_map_range_ite _ nW w0 h]

theorem toyDemand_feasible : Feasible toyDemand toyDemandSol := by
  constructor <;>
    simp [toyDemand, toyDemandSol, G_p, f_in, f_out, TechToEnergy, buyE, saleE,
      LinesInterconnectors, DemandSet, sum_in_raw, sum_out_raw, origCap, UC, RR,
      Minimum, RampRate, capacity, Fe, in_frac, out_frac, soc_init, soc_max,
      discharge, balance_guard, balance_eq, demand_guard, demand_ineq,
      total_cap, target_total, slack_sum, imp_cost, sale_rev, price_sale,
      var_om, startup_sum, profit_definition, sumL, listProd, List.range_succ]

end GLSSUS

namespace GLSSUS

/-! ## Claim theorems -/

/-- Claim C5: splitting an 8760-step horizon into 52 buckets assigns
every step to exactly one bucket (the assignment sequence has exactly
8760 entries, one per step, so bucket sizes sum to 8760), every label is
one of the 52 bucket labels, and bucket `w+1` receives
`⌊8760/52⌋` steps plus one more exactly when `w` is below the remainder
`8760 % 52`, so the earliest buckets receive the remainder steps. -/
theorem demand_target_bucketing :
    (weekAssignment 8760 52).length = 8760 ∧
      (∀ w, w < 52 →
        (weekAssignment 8760 52).count (w + 1) =
          8760 / 52 + if w < 8760 % 52 then 1 else 0) ∧
      (∀ c ∈ weekAssignment 8760 52, 1 ≤ c ∧ c ≤ 52) := by
  refine ⟨?_, fun w hw => count_weekAssignment 8760 52 w hw, ?_⟩
  · rw [weekAssignment, length_flatMap_sum]
    simp only [List.length_replicate]
    decide
  · intro c hc
    rw [weekAssignment] at hc
    simp only [List.mem_flatMap] at hc
    obtain ⟨w, hw, hc⟩ := hc
    have hlab := List.eq_of_mem_replicate hc
    have hlt := List.mem_range.mp hw
    omega

/-- Witness for C5: bucket 1 of the 8760-step horizon receives
`⌊8760/52⌋ + 1 = 169` steps. -/
theorem demand_target_bucketing_witness :
    (weekAssignment 8760 52).count 1 = 169 := by
  have h := demand_target_bucketing.2.1 0 (by norm_num)
  simpa using h

/-- Claim C10: the derived conversion efficiency is total raw output
over total raw input when the input total is strictly positive, and is
defined with the default value 1 when the input-mix entries sum to
zero. -/
theorem efficiency_guarded (M : ModelData) (g : String) :
    (sum_in_raw M g = 0 → Fe M g = 1) ∧
      (0 < sum_in_raw M g → Fe M g = sum_out_raw M g / sum_in_raw M g) := by
  constructor <;> intro h <;> unfold Fe
  · rw [if_neg]
    rw [h]
    exact lt_irrefl 0
  · rw [if_pos h]

/-- Witness for C10: the zero-size storage technology of `toyStorage`
has no positive imports, and its efficiency is the default 1. -/
theorem efficiency_guarded_witness : Fe toyStorage "S" = 1 :=
  (efficiency_guarded toyStorage "S").1 (by
    norm_num [sum_in_raw, sumL, toyStorage])

/-- Claim C6: for a technology whose raw input-mix (resp. output-mix)
entries are nonnegative with a strictly positive total, the computed
mix fractions over the carriers with strictly positive raw entries sum
to exactly 1, each fraction being the raw entry over the raw total. -/
theorem mix_fraction_normalization (M : ModelData) (g : String)
    (hin : ∀ e ∈ M.F, 0 ≤ M.sigma_in g e)
    (hout : ∀ e ∈ M.F, 0 ≤ M.sigma_out g e) :
    (0 < sum_in_raw M g →
      sumL (M.F.filter (fun e => decide (0 < M.sigma_in g e)))
        (fun e => in_frac M g e) = 1) ∧
      (0 < sum_out_raw M g →
        sumL (M.F.filter (fun e => decide (0 < M.sigma_out g e)))
          (fun e => out_frac M g e) = 1) := by
  constructor
  · intro hpos
    have h1 : sumL (M.F.filter (fun e => decide (0 < M.sigma_in g e)))
        (fun e => in_frac M g e) =
        sumL (M.F.filter (fun e => decide (0 < M.sigma_in g e)))
          (fun e => M.sigma_in g e / sum_in_raw M g) := by
      apply sumL_congr
      intro e he
      have hmem := List.mem_filter.mp he
      have hp : 0 < M.sigma_in g e := of_decide_eq_true hmem.2
      unfold in_frac
      rw [if_pos hp]
    rw [h1, sumL_div, sumL_filter_pos hin]
    exact div_self (ne_of_gt hpos)
  · intro hpos
    have h1 : sumL (M.F.filter (fun e => decide (0 < M.sigma_out g e)))
        (fun e => out_frac M g e) =
        sumL (M.F.filter (fun e => decide (0 < M.sigma_out g e)))
          (fun e => M.sigma_out g e / sum_out_raw M g) := by
      apply sumL_congr
      intro e he
      have hmem := List.mem_filter.mp he
      have hp : 0 < M.sigma_out g e := of_decide_eq_true hmem.2
      unfold out_frac
      rw [if_pos hp]
    rw [h1, sumL_div, sumL_filter_pos hout]
    exact div_self (ne_of_gt hpos)

/-- Witness for C6: the input-mix fractions of `toyUC`'s technology sum
to 1 over its positive entries. -/
theorem mix_fraction_normalization_witness :
    sumL (toyUC.F.filter (fun e => decide (0 < toyUC.sigma_in "U" e)))
      (fun e => in_frac toyUC "U" e) = 1 :=
  (mix_fraction_normalization toyUC "U"
      (by intro e _; norm_num [toyUC]; split <;> norm_num)
      (by intro e _; norm_num [toyUC]; split <;> norm_num)).1
    (by norm_num [sum_in_raw, sumL, toyUC])

end GLSSUS

namespace GLSSUS

/-- Claim C1: the `ProfitDefinition` constraint pins `Profit` to total
sale revenue minus total buy cost, minus variable O&M over the
technology-to-primary-carrier links, minus total startup cost, minus
the configured penalty times the sum of all slack variables (the
per-time demand-floor import and export slacks together with the
aggregated demand-target shortfall slacks), and the objective maximizes
`Profit`. -/
theorem profit_and_objective (M : ModelData) (σ : Solution) :
    (profit_definition M σ ↔
      σ.Profit =
        sale_rev M σ - imp_cost M σ - var_om M σ - startup_sum M σ -
          M.penalty *
            (sumL (DemandSet M)
                (fun q => σ.SlackDemandImport q.1 q.2.1 q.2.2) +
              sumL (DemandSet M)
                (fun q => σ.SlackDemandExport q.1 q.2.1 q.2.2) +
              sumL M.demandFuel
                (fun q => σ.SlackTarget q.1 q.2.1 q.2.2))) ∧
      (objective M).2 = ObjSense.maximize ∧
      (objective M).1 σ = σ.Profit := by
  refine ⟨?_, rfl, rfl⟩
  have key : slack_sum M σ =
      sumL (DemandSet M) (fun q => σ.SlackDemandImport q.1 q.2.1 q.2.2) +
        sumL (DemandSet M) (fun q => σ.SlackDemandExport q.1 q.2.1 q.2.2) +
        sumL M.demandFuel (fun q => σ.SlackTarget q.1 q.2.1 q.2.2) := by
    unfold slack_sum
    rw [sumL_add]
  unfold profit_definition
  rw [key]
  constructor <;> intro h <;> rw [h] <;> ring

/-- Claim C2: the energy-balance constraint generates a row at
`(a, e, t)` exactly when the pair is a tradable buy pair, a tradable
sell pair, or some technology sited in the area has the carrier in its
input or output mix; all other pairs generate no row at all. -/
theorem balance_sparsity (M : ModelData) (a e t : String)
    (ha : a ∈ M.A) (he : e ∈ M.F) (ht : t ∈ M.T) :
    balanceRowActive M a e t = true ↔
      ((a, e) ∈ buyE M ∨ (a, e) ∈ saleE M ∨
        ∃ g, (a, g) ∈ M.location ∧
          ((g, e) ∈ f_in M ∨ (g, e) ∈ f_out M)) := by
  have hact : balanceRowActive M a e t = balance_guard M a e := by
    unfold balanceRowActive
    simp [ha, he, ht]
  rw [hact]
  unfold balance_guard
  simp only [Bool.or_eq_true, decide_eq_true_eq, List.any_eq_true,
    List.mem_map, List.mem_filter, beq_iff_eq]
  rw [or_assoc]
  apply or_congr Iff.rfl
  apply or_congr Iff.rfl
  constructor
  · rintro ⟨g, ⟨⟨p1, p2⟩, ⟨hploc, rfl⟩, rfl⟩, hio⟩
    exact ⟨p2, hploc, hio⟩
  · rintro ⟨g, hloc, hio⟩
    exact ⟨g, ⟨(a, g), ⟨hloc, rfl⟩, rfl⟩, hio⟩

/-- Witness for C2: in `toyUC`, area `A1` and carrier `P` host a sited
technology importing `P`, so the balance row is generated. -/
theorem balance_sparsity_witness :
    balanceRowActive toyUC "A1" "P" "t1" = true :=
  (balance_sparsity toyUC "A1" "P" "t1" (by decide) (by decide)
      (by decide)).mpr
    (Or.inr (Or.inr ⟨"U", by decide,
      Or.inl (by norm_num [f_in, listProd, toyUC])⟩))

/-- Claim C3: on any feasible solution the storage volume at the last
time step equals the initial volume parameter — the `TerminalSOC`
family makes this a hard equality. -/
theorem storage_terminal_volume (M : ModelData) (σ : Solution)
    (h : Feasible M σ) (g : String) (hg : g ∈ M.G_s) (hne : M.T ≠ []) :
    σ.Volume g (M.T.getD (M.T.length - 1) "") = soc_init M g :=
  h.terminal_soc g hg hne

/-- Witness for C3: the storage technology of `toyStorage` ends the
horizon at its initial volume. -/
theorem storage_terminal_volume_witness :
    zeroSol.Volume "S" (toyStorage.T.getD (toyStorage.T.length - 1) "") =
      soc_init toyStorage "S" :=
  storage_terminal_volume toyStorage zeroSol toyStorage_feasible "S"
    (by decide) (by decide)

/-- Claim C4: for a unit-commitment technology and any feasible
solution, an offline step has zero total fuel intake, and a strictly
positive minimum-load fraction with the unit online forces intake of at
least the fraction times the scaled rated capacity. -/
theorem unit_commitment_logic (M : ModelData) (σ : Solution)
    (h : Feasible M σ) (g t : String) (hg : g ∈ UC M) (ht : t ∈ M.T) :
    (σ.Online g t = 0 → σ.Fuelusetotal g t = 0) ∧
      (0 < M.minRaw g → σ.Online g t = 1 →
        M.minRaw g * capacity M g ≤ σ.Fuelusetotal g t) := by
  have hgG : g ∈ M.G := (List.mem_filter.mp hg).1
  constructor
  · intro hon
    have hcap := h.capacity_row g hgG t ht hg
    rw [hon, mul_zero] at hcap
    have hnn := h.fuelusetotal_nonneg g hgG t ht
    linarith
  · intro hmin hon
    have hMin : Minimum M g = M.minRaw g * capacity M g := by
      unfold Minimum capacity
      rw [if_pos hmin]
      ring
    by_cases hpos : 0 < Minimum M g
    · have hml := h.minimum_load g hgG t ht hg hpos
      rw [hon, mul_one] at hml
      rw [← hMin]
      linarith
    · have hnn := h.fuelusetotal_nonneg g hgG t ht
      rw [← hMin]
      have hle := not_lt.mp hpos
      linarith

/-- Witness for C4: `toyUC`'s online unit at full load satisfies the
minimum-load bound `minRaw * capacity = 1/2`. -/
theorem unit_commitment_logic_witness :
    toyUC.minRaw "U" * capacity toyUC "U" ≤
      toyUCSol.Fuelusetotal "U" "t1" :=
  (unit_commitment_logic toyUC toyUCSol toyUC_feasible "U" "t1"
      (by norm_num [UC, toyUC]) (by decide)).2
    (by norm_num [toyUC]) (by norm_num [toyUCSol])

/-- Claim C7: any (area, carrier) pair with a strictly positive demand
somewhere in the horizon generates the demand-floor row at every time
step, and any feasible solution satisfies the row:
(sale when tradable) + import-shortfall slack − export-shortfall slack
is at least the demand. -/
theorem demand_floor (M : ModelData) (σ : Solution) (h : Feasible M σ)
    (a e t : String) (hmem : (a, e) ∈ M.demandPairs)
    (hnn : ∀ tt ∈ M.T, 0 ≤ M.demand a e tt)
    (hpos : ∃ t0 ∈ M.T, 0 < M.demand a e t0) (ht : t ∈ M.T) :
    demandRowActive M a e t = true ∧
      (if (a, e) ∈ saleE M then σ.Sale a e t else 0) +
          σ.SlackDemandImport a e t - σ.SlackDemandExport a e t ≥
        M.demand a e t := by
  obtain ⟨t0, ht0, hp⟩ := hpos
  have htot : 0 < sumL M.T (fun tt => M.demand a e tt) :=
    sumL_pos_of_mem ht0 hp hnn
  have hguard : demand_guard M a e = true := by
    unfold demand_guard
    exact decide_eq_true htot
  have hds : (a, e, t) ∈ DemandSet M := by
    unfold DemandSet
    simp only [List.mem_flatMap, List.mem_map]
    exact ⟨(a, e), hmem, t, ht, rfl⟩
  refine ⟨?_, ?_⟩
  · unfold demandRowActive
    simp [hmem, ht, hguard]
  · have hrow := h.demand_time (a, e, t) hds hguard
    unfold demand_ineq at hrow
    exact hrow

/-- Witness for C7: in `toyDemand` the pair `("A1", "P")` has demand 1
at the first hour; the row is generated and the feasible solution
covers the demand through the import slack. -/
theorem demand_floor_witness :
    demandRowActive toyDemand "A1" "P" "t1" = true ∧
      (if ("A1", "P") ∈ saleE toyDemand
          then toyDemandSol.Sale "A1" "P" "t1" else 0) +
          toyDemandSol.SlackDemandImport "A1" "P" "t1" -
          toyDemandSol.SlackDemandExport "A1" "P" "t1" ≥
        toyDemand.demand "A1" "P" "t1" :=
  demand_floor toyDemand toyDemandSol toyDemand_feasible "A1" "P" "t1"
    (by decide)
    (by
      intro tt htt
      norm_num [toyDemand]
      split <;> norm_num)
    ⟨"t1", by decide, by norm_num [toyDemand]⟩ (by decide)

end GLSSUS

namespace GLSSUS

/-- Mechanism behind claim C8: the strategic loop queries 3-element
`(area, carrier, time)` tuples against `saleE`, whose stored members
are the 2-element `(area, carrier)` pairs built by `sets.py`; such a
query is never found, so `_update_strategy` leaves every stored value
unchanged and reports a maximum change of 0. -/
theorem update_strategy_arity_mismatch (saleE : List (List String))
    (h2 : ∀ m ∈ saleE, m.length = 2) (T : List String)
    (saleVal : String → ℚ) (area co2 : String) (damping : ℚ)
    (curr : String → ℚ) :
    update_strategy saleE T saleVal area co2 damping curr = (curr, 0) := by
  have hc : ∀ t, saleE.contains [area, co2, t] = false := by
    intro t
    cases hcc : saleE.contains [area, co2, t] with
    | false => rfl
    | true =>
        have hm : [area, co2, t] ∈ saleE := by simpa using hcc
        have hlen := h2 _ hm
        simp at hlen
  unfold update_strategy
  have main : ∀ (l : List String) (acc : (String → ℚ) × ℚ),
      l.foldl
        (fun (acc : (String → ℚ) × ℚ) t =>
          let idx := [area, co2, t]
          if saleE.contains idx then
            let newVal := saleVal t
            let oldVal := acc.1 t
            let updated := damping * newVal + (1 - damping) * oldVal
            (fun s => if s == t then updated else acc.1 s,
              max acc.2 |updated - oldVal|)
          else acc) acc = acc := by
    intro l
    induction l with
    | nil => intro acc; rfl
    | cons t l ih =>
        intro acc
        rw [List.foldl_cons]
        have hif := hc t
        simp only [hif]
        exact ih acc
  exact main T (curr, 0)

/-- Claim C8, evaluated at a concrete failing input: with
`saleE = [("A1", "CO2")]`, one time step, a solved sale of 10, an old
stored value of 0 and damping 1/2, the update the claim describes would
store `1/2 * 10 + (1 - 1/2) * 0 = 5` and report a change of 5; the code
instead leaves the stored value at 0 and reports a change of 0, because
the 3-tuple `("A1", "CO2", "t1")` is never found in the 2-dimensional
`saleE` set. -/
theorem update_strategy_at_failing_input :
    (update_strategy [["A1", "CO2"]] ["t1"] (fun _ => 10) "A1" "CO2"
        ((1 : ℚ)/2) (fun _ => 0)).1 "t1" = 0 ∧
      (update_strategy [["A1", "CO2"]] ["t1"] (fun _ => 10) "A1" "CO2"
        ((1 : ℚ)/2) (fun _ => 0)).2 = 0 ∧
      (update_strategy [["A1", "CO2"]] ["t1"] (fun _ => 10) "A1" "CO2"
          ((1 : ℚ)/2) (fun _ => 0)).1 "t1" ≠
        (1 : ℚ)/2 * 10 + (1 - (1 : ℚ)/2) * 0 := by
  refine ⟨rfl, rfl, ?_⟩
  show (0 : ℚ) ≠ (1 : ℚ)/2 * 10 + (1 - (1 : ℚ)/2) * 0
  norm_num

/-- A base model whose strategic-supplier set is absent
(`getattr` returns `None`). -/
def bm0 : StratModel where
  strategicSuppliers := none
  location := []
  saleE := []
  T := ["t1"]
  baseSale := fun _ => 0

/-- Claim C9 counterexample: on a model with the strategic-supplier set
missing, `run_cournot` does fail with the descriptive error, but the
initial centralized solve has already run — the solver-invocation trace
before the failure is `[solveCentral]`, not empty, contradicting the
claim that no solve occurs prior to the failure. -/
theorem strategic_error_counterexample :
    (run_cournot bm0 (fun _ _ _ => 0) 1 30 ((1 : ℚ)/2) "CO2").2 =
        Except.error stratErrMsg ∧
      (run_cournot bm0 (fun _ _ _ => 0) 1 30 ((1 : ℚ)/2) "CO2").1 =
        [CEvent.solveCentral] :=
  ⟨rfl, rfl⟩

/-- Claim C9 as amended: when the strategic-supplier set is missing or
empty, `run_cournot` fails with the descriptive error right after the
single initial centralized baseline solve and before any best-response
or finalization solve — the full trace is exactly `[solveCentral]`. -/
theorem strategic_error_after_baseline (m : StratModel)
    (brSale : ℕ → String → List String → ℚ) (tol : ℚ) (maxIter : ℕ)
    (damping : ℚ) (co2 : String)
    (h : m.strategicSuppliers = none ∨ m.strategicSuppliers = some []) :
    run_cournot m brSale tol maxIter damping co2 =
      ([CEvent.solveCentral], Except.error stratErrMsg) := by
  rcases h with h | h <;> simp [run_cournot, h]

/-- Witness for the amended C9 at a concrete model. -/
theorem strategic_error_after_baseline_witness :
    run_cournot bm0 (fun _ _ _ => 0) 1 30 ((1 : ℚ)/2) "CO2" =
      ([CEvent.solveCentral], Except.error stratErrMsg) :=
  strategic_error_after_baseline bm0 (fun _ _ _ => 0) 1 30 ((1 : ℚ)/2)
    "CO2" (Or.inl rfl)

end GLSSUS
